import Mathlib

/-!
Shallow embedding of `gym_ai2thor/tasks.py` (cups-rl): reward/termination logic
for the three task variants `PickUpTask`, `PickUpAndFindReceptacleTask` and
`ExploreAllObjects`.

Modelling choices:
* Python floats become `Rat` (the claims are about which configured values are
  added or subtracted, not about rounding).
* Python dicts used as configuration tables (`target_objects`,
  `target_receptacles`, `target_receptacles_need_open`) become association
  lists `List (String × Rat)`; `k in d` is `dictHas`, `d.get(k, 0)` is
  `dictGet d k 0`, `len(d)` is `List.length` (configuration tables have
  distinct keys).
* An inventory object or event descriptor is identified by its `objectType`
  string; an absent event (`None` in the metadata) is `Option.none`.
* A Python `raise` becomes an `Except.error`; because `transition_reward`
  mutates instance attributes before a possible raise, it returns the
  post-call task alongside the `Except` result.
* `max_episode_length` is a `Nat`; the Python truthiness test
  `if self.max_episode_length` is `≠ 0`.
-/

inductive InitError where
  | keyError
  | invalidTaskParams (missing : List String)
  deriving DecidableEq, Repr

inductive RewardError where
  | typeError
  | assertionError
  deriving DecidableEq, Repr

deriving instance DecidableEq for Except

/-- Association-list model of a Python dict used as a reward table:
`d.get(k, default)`. -/
def dictGet (d : List (String × Rat)) (k : String) (default : Rat) : Rat :=
  match d.lookup k with
  | some v => v
  | none => default

/-- Association-list model of the Python membership test `k in d`. -/
def dictHas (d : List (String × Rat)) (k : String) : Bool :=
  (d.lookup k).isSome

/-- A scene object as read by `ExploreAllObjects.transition_reward`: its
`name` and its `visible` flag.  The 3-D `position` is only printed by the
source and never affects reward, done or task state, so it is omitted. -/
structure SceneObject where
  name : String
  visible : Bool
  deriving DecidableEq, Repr

/-- The per-step state snapshot (the fields of `state.metadata` the tasks
read).  Inventory objects and event descriptors are reduced to their
`objectType` strings; `none` models a `None` metadata entry. -/
structure StepState where
  inventoryObjects : List String
  lastObjectPutReceptacle : Option String
  lastObjectOpened : Option String
  lastObjectClosed : Option String
  objects : List SceneObject
  deriving DecidableEq, Repr

/-- The keyword arguments passed to a task constructor.
`max_episode_length` and `movement_reward` are read from the top-level
kwargs with `config.get` (defaults 1000 and -0.01); the three `target_*`
tables live in the `task` sub-dict, `none` meaning the key is unset there.
`pickup_objects` is the externally supplied set of pickupable types. -/
structure TaskKwargs where
  max_episode_length : Option Nat
  movement_reward : Option Rat
  target_objects : Option (List (String × Rat))
  target_receptacles : Option (List (String × Rat))
  target_receptacles_need_open : Option (List (String × Rat))
  pickup_objects : List String
  deriving Repr

/-- The validation loop shared by `PickUpTask.__init__` and
`PickUpAndFindReceptacleTask.__init__`: the configured target-object keys
that are not pickupable. -/
def missingObjects (tobjs : List (String × Rat)) (pickups : List String) :
    List String :=
  (tobjs.map Prod.fst).filter (fun o => !(pickups.contains o))

structure PickUpTask where
  max_episode_length : Nat
  movement_reward : Rat
  target_objects : List (String × Rat)
  step_num : Nat
  prev_inventory : List String
  deriving DecidableEq, Repr

/-- `PickUpTask.__init__`.  Note the source first subscripts
`kwargs['task']['target_objects']` directly (a `KeyError` when the option is
unset) and only afterwards assigns `self.target_objects` via `.get`. -/
def PickUpTask.init (kwargs : TaskKwargs) : Except InitError PickUpTask :=
  match kwargs.target_objects with
  | none => .error .keyError
  | some tobjs =>
    let missing := missingObjects tobjs kwargs.pickup_objects
    if missing.isEmpty then
      .ok { max_episode_length := kwargs.max_episode_length.getD 1000
            movement_reward := kwargs.movement_reward.getD (-1/100)
            target_objects := tobjs
            step_num := 0
            prev_inventory := [] }
    else .error (.invalidTaskParams missing)

/-- The guard `object_picked_up`: previous inventory empty, current inventory
non-empty, and the held object's type a key of `target_objects`. -/
def objectPickedUp (prev curr : List String) (tobjs : List (String × Rat)) :
    Bool :=
  prev.isEmpty &&
    (match curr with
     | [] => false
     | c :: _ => dictHas tobjs c)

/-- The reward added by the `if object_picked_up` block:
`target_objects.get(curr_inventory[0].objectType, 0)` when the guard holds,
nothing otherwise. -/
def pickupBonus (prev curr : List String) (tobjs : List (String × Rat)) :
    Rat :=
  match curr with
  | [] => 0
  | c :: _ =>
    if prev.isEmpty && dictHas tobjs c then dictGet tobjs c 0 else 0

/-- `PickUpTask.transition_reward`.  The unused `action_str` parameter of the
source is dropped.  The updated task (with `prev_inventory` replaced by the
current inventory) is returned alongside `(reward, done)`. -/
def PickUpTask.transition_reward (t : PickUpTask) (s : StepState) :
    (Rat × Bool) × PickUpTask :=
  ((t.movement_reward +
      pickupBonus t.prev_inventory s.inventoryObjects t.target_objects,
    decide (t.max_episode_length ≠ 0 ∧ t.max_episode_length ≤ t.step_num)),
   { t with prev_inventory := s.inventoryObjects })

def PickUpTask.reset (t : PickUpTask) : PickUpTask :=
  { t with prev_inventory := [], step_num := 0 }

structure PickUpAndFindReceptacleTask where
  max_episode_length : Nat
  movement_reward : Rat
  target_objects : List (String × Rat)
  target_receptacles : List (String × Rat)
  target_receptacles_need_open : List (String × Rat)
  step_num : Nat
  prev_inventory : List String
  deriving DecidableEq, Repr

/-- `PickUpAndFindReceptacleTask.__init__`: same direct subscript of
`target_objects` and same pickupability validation as `PickUpTask.init`;
the two receptacle tables are read with `.get(…, \x7b\x7d)`. -/
def PickUpAndFindReceptacleTask.init (kwargs : TaskKwargs) :
    Except InitError PickUpAndFindReceptacleTask :=
  match kwargs.target_objects with
  | none => .error .keyError
  | some tobjs =>
    let missing := missingObjects tobjs kwargs.pickup_objects
    if missing.isEmpty then
      .ok { max_episode_length := kwargs.max_episode_length.getD 1000
            movement_reward := kwargs.movement_reward.getD (-1/100)
            target_objects := tobjs
            target_receptacles := kwargs.target_receptacles.getD []
            target_receptacles_need_open :=
              kwargs.target_receptacles_need_open.getD []
            step_num := 0
            prev_inventory := [] }
    else .error (.invalidTaskParams missing)

/-- The guard `object_put_down`: previous inventory non-empty, current
inventory empty, and the previously held object's type a key of
`target_objects`. -/
def objectPutDown (prev curr : List String) (tobjs : List (String × Rat)) :
    Bool :=
  match prev with
  | [] => false
  | p :: _ => curr.isEmpty && dictHas tobjs p

/-- The `if object_put_down` block.  When the guard holds the source
subscripts `state.metadata["lastObjectPutReceptacle"]['objectType']`, a
`TypeError` (`none` here) when that event is absent; otherwise it adds
`target_receptacles.get(receptacle, 0)`. -/
def putDownResult (t : PickUpAndFindReceptacleTask) (s : StepState) :
    Option Rat :=
  if objectPutDown t.prev_inventory s.inventoryObjects t.target_objects then
    match s.lastObjectPutReceptacle with
    | some r => some (dictGet t.target_receptacles r 0)
    | none => none
  else some 0

/-- The `if action_str == "OpenObject"` block: adds
`target_receptacles_need_open.get(lastObjectOpened.objectType, 0)` when the
action matches and the opened event is present. -/
def openBonus (t : PickUpAndFindReceptacleTask) (s : StepState)
    (a : Option String) : Rat :=
  if a = some "OpenObject" then
    match s.lastObjectOpened with
    | some o => dictGet t.target_receptacles_need_open o 0
    | none => 0
  else 0

/-- The `if action_str == "CloseObject"` block.  When the action matches and
`lastObjectClosed` is present, the source subscripts
`state.metadata["lastObjectOpened"]['objectType']` — the *opened* event —
raising a `TypeError` (`none` here) when that event is absent, and otherwise
subtracting `target_receptacles_need_open.get(opened, 0)`. -/
def closeResult (t : PickUpAndFindReceptacleTask) (s : StepState)
    (a : Option String) : Option Rat :=
  if a = some "CloseObject" then
    match s.lastObjectClosed with
    | some _ =>
      match s.lastObjectOpened with
      | some o => some (-(dictGet t.target_receptacles_need_open o 0))
      | none => none
    | none => some 0
  else some 0

/-- `PickUpAndFindReceptacleTask.transition_reward`.  The four reward blocks
run in source order (pickup, put-down, open, close); a raise in the put-down
or close block aborts the call before `self.prev_inventory` is reassigned,
so the pre-call task is returned with the error. -/
def PickUpAndFindReceptacleTask.transition_reward
    (t : PickUpAndFindReceptacleTask) (s : StepState) (a : Option String) :
    Except RewardError (Rat × Bool) × PickUpAndFindReceptacleTask :=
  match putDownResult t s with
  | none => (.error .typeError, t)
  | some putBonus =>
    match closeResult t s a with
    | none => (.error .typeError, t)
    | some closeBonus =>
      (.ok
        (t.movement_reward +
            pickupBonus t.prev_inventory s.inventoryObjects t.target_objects +
            putBonus + openBonus t s a + closeBonus,
         decide (t.max_episode_length ≠ 0 ∧
                 t.max_episode_length ≤ t.step_num)),
       { t with prev_inventory := s.inventoryObjects })

def PickUpAndFindReceptacleTask.reset (t : PickUpAndFindReceptacleTask) :
    PickUpAndFindReceptacleTask :=
  { t with prev_inventory := [], step_num := 0 }

structure ExploreAllObjects where
  max_episode_length : Nat
  movement_reward : Rat
  target_objects : List (String × Rat)
  step_num : Nat
  discoverd : List String
  deriving DecidableEq, Repr

/-- `ExploreAllObjects.__init__` reads `target_objects` with `.get` (so an
unset option defaults to empty) and performs no pickupability check. -/
def ExploreAllObjects.init (kwargs : TaskKwargs) : ExploreAllObjects :=
  { max_episode_length := kwargs.max_episode_length.getD 1000
    movement_reward := kwargs.movement_reward.getD (-1/100)
    target_objects := kwargs.target_objects.getD []
    step_num := 0
    discoverd := [] }

/-- The object loop of `ExploreAllObjects.transition_reward`: for each scene
object, `assert obj.name in target_objects` (an `AssertionError` stops the
loop, keeping the additions already made to `discoverd`); a visible,
not-yet-discovered object is appended to `discoverd` and its configured
reward added.  The `discoverd` set is modelled as a duplicate-free list. -/
def exploreLoop (tobjs : List (String × Rat)) (disc : List String)
    (reward : Rat) : List SceneObject → Except RewardError Rat × List String
  | [] => (.ok reward, disc)
  | o :: rest =>
    if !(dictHas tobjs o.name) then (.error .assertionError, disc)
    else if o.visible && !(disc.contains o.name) then
      exploreLoop tobjs (disc ++ [o.name])
        (reward + dictGet tobjs o.name 0) rest
    else exploreLoop tobjs disc reward rest

/-- `ExploreAllObjects.transition_reward`.  After the object loop the source
tests `max_episode_length and step_num >= max_episode_length or
len(discoverd) == len(target_objects)`; only the all-found branch adds the
flat +50 bonus.  The returned task carries the (possibly partially) updated
`discoverd`. -/
def ExploreAllObjects.transition_reward (t : ExploreAllObjects)
    (s : StepState) :
    Except RewardError (Rat × Bool) × ExploreAllObjects :=
  match exploreLoop t.target_objects t.discoverd t.movement_reward s.objects
    with
  | (.error e, disc) => (.error e, { t with discoverd := disc })
  | (.ok reward, disc) =>
    let t1 := { t with discoverd := disc }
    if (t.max_episode_length ≠ 0 ∧ t.max_episode_length ≤ t.step_num) ∨
        disc.length = t.target_objects.length then
      if t.max_episode_length ≠ 0 ∧ t.max_episode_length ≤ t.step_num then
        (.ok (reward, true), t1)
      else
        (.ok (reward + 50, true), t1)
    else (.ok (reward, false), t1)

def ExploreAllObjects.reset (t : ExploreAllObjects) : ExploreAllObjects :=
  { t with discoverd := [], step_num := 0 }

/-- Modelled from the spec: the owning environment loop
(`gym_ai2thor/envs/ai2thor_env.py`, not under `src/`) increments
`task.step_num` once per simulation step before calling
`transition_reward` (§9: "`step_num` is read but never incremented
internally; the owning loop must increment it before calling `evaluate`").
`runSeq` feeds a task a finite sequence of step states under that loop. -/
def PickUpTask.runSeq (t : PickUpTask) :
    List StepState → List (Rat × Bool)
  | [] => []
  | s :: rest =>
    let r := PickUpTask.transition_reward
      { t with step_num := t.step_num + 1 } s
    r.1 :: PickUpTask.runSeq r.2 rest

/-- Modelled from the spec: the same externally driven stepping loop for
`PickUpAndFindReceptacleTask`; a raised error ends the episode. -/
def PickUpAndFindReceptacleTask.runSeq (t : PickUpAndFindReceptacleTask) :
    List (StepState × Option String) →
      List (Except RewardError (Rat × Bool))
  | [] => []
  | (s, a) :: rest =>
    match PickUpAndFindReceptacleTask.transition_reward
      { t with step_num := t.step_num + 1 } s a with
    | (.ok rd, t2) =>
      .ok rd :: PickUpAndFindReceptacleTask.runSeq t2 rest
    | (.error e, _) => [.error e]

/-- Modelled from the spec: the same externally driven stepping loop for
`ExploreAllObjects`; a raised error ends the episode. -/
def ExploreAllObjects.runSeq (t : ExploreAllObjects) :
    List StepState → List (Except RewardError (Rat × Bool))
  | [] => []
  | s :: rest =>
    match ExploreAllObjects.transition_reward
      { t with step_num := t.step_num + 1 } s with
    | (.ok rd, t2) => .ok rd :: ExploreAllObjects.runSeq t2 rest
    | (.error e, _) => [.error e]

/-- A step state with all event descriptors absent and no scene objects. -/
def emptyStepState : StepState :=
  { inventoryObjects := []
    lastObjectPutReceptacle := none
    lastObjectOpened := none
    lastObjectClosed := none
    objects := [] }

/-- Concrete task for exercising the CloseObject branch (claim C1). -/
def c1Task : PickUpAndFindReceptacleTask :=
  { max_episode_length := 1000
    movement_reward := -1/100
    target_objects := [("Apple", 5)]
    target_receptacles := [("Fridge", 3)]
    target_receptacles_need_open := [("Fridge", 2), ("Box", 9)]
    step_num := 4
    prev_inventory := [] }

/-- Concrete state where the closed object ("Box") differs from the opened
one ("Fridge") (claim C1). -/
def c1State : StepState :=
  { emptyStepState with
    lastObjectOpened := some "Fridge"
    lastObjectClosed := some "Box" }

/-- Concrete ExploreAllObjects task whose target table lacks "Ghost"
(claim C2). -/
def c2ExpTask : ExploreAllObjects :=
  { max_episode_length := 1000
    movement_reward := -1/100
    target_objects := [("Mug", 1)]
    step_num := 0
    discoverd := [] }

/-- Concrete state whose second scene object violates the
`assert obj.name in target_objects` contract (claim C2). -/
def c2ExpState : StepState :=
  { emptyStepState with
    objects := [{ name := "Mug", visible := true },
                { name := "Ghost", visible := true }] }

/-- Concrete PickUpAndFindReceptacleTask holding an "Apple" (claim C2). -/
def c2RecTask : PickUpAndFindReceptacleTask :=
  { max_episode_length := 1000
    movement_reward := -1/100
    target_objects := [("Apple", 5)]
    target_receptacles := [("Fridge", 3)]
    target_receptacles_need_open := []
    step_num := 2
    prev_inventory := ["Apple"] }

/-- Concrete state with an empty inventory and no put-receptacle event, so
the put-down block dereferences an absent descriptor (claim C2). -/
def c2RecState : StepState := emptyStepState

/-- Concrete task holding a target "Apple" from the previous step
(claim C3). -/
def c3Task : PickUpAndFindReceptacleTask :=
  { max_episode_length := 1000
    movement_reward := -1/100
    target_objects := [("Apple", 5)]
    target_receptacles := [("Fridge", 3)]
    target_receptacles_need_open := []
    step_num := 3
    prev_inventory := ["Apple"] }

/-- Concrete state where the put-down edge fires while
`lastObjectPutReceptacle` is absent (claim C3). -/
def c3State : StepState := emptyStepState

/-- Concrete state for the amended put-down claim: the receptacle event is
present but its type ("Table") is not a listed target receptacle
(claim C3). -/
def c3StateTable : StepState :=
  { emptyStepState with lastObjectPutReceptacle := some "Table" }

/-- Keyword arguments in which the `target_objects` option is unset
(claim C4). -/
def c4Kwargs : TaskKwargs :=
  { max_episode_length := some 50
    movement_reward := some (-1/100)
    target_objects := none
    target_receptacles := none
    target_receptacles_need_open := none
    pickup_objects := ["Apple"] }

/-- Keyword arguments with `target_objects` configured and the two
receptacle tables unset (claim C4). -/
def c4KwargsOk : TaskKwargs :=
  { max_episode_length := some 50
    movement_reward := some (-1/100)
    target_objects := some [("Apple", 5)]
    target_receptacles := none
    target_receptacles_need_open := none
    pickup_objects := ["Apple"] }

/-- Keyword arguments whose target object "Unicorn" is not pickupable
(claim C5). -/
def c5KwargsBad : TaskKwargs :=
  { max_episode_length := some 50
    movement_reward := some (-1/100)
    target_objects := some [("Apple", 5), ("Unicorn", 7)]
    target_receptacles := some [("Fridge", 3)]
    target_receptacles_need_open := some []
    pickup_objects := ["Apple", "Mug"] }

/-- Keyword arguments all of whose target objects are pickupable
(claim C5). -/
def c5KwargsGood : TaskKwargs :=
  { max_episode_length := some 50
    movement_reward := some (-1/100)
    target_objects := some [("Apple", 5), ("Mug", 7)]
    target_receptacles := some [("Fridge", 3)]
    target_receptacles_need_open := some []
    pickup_objects := ["Apple", "Mug"] }

/-- Concrete ExploreAllObjects task at its step budget with one target left
(claim C6). -/
def c6Task : ExploreAllObjects :=
  { max_episode_length := 1
    movement_reward := -1/100
    target_objects := [("Mug", 5)]
    step_num := 1
    discoverd := [] }

/-- Concrete state in which the last target "Mug" becomes visible
(claim C6). -/
def c6State : StepState :=
  { emptyStepState with objects := [{ name := "Mug", visible := true }] }

/-- Concrete ExploreAllObjects task with one of two targets already found
and the step budget not exhausted (claim C6). -/
def c6wTask : ExploreAllObjects :=
  { max_episode_length := 1000
    movement_reward := -1/100
    target_objects := [("Mug", 5), ("Pen", 7)]
    step_num := 10
    discoverd := ["Pen"] }

/-- Concrete state in which the remaining target "Mug" becomes visible
(claim C6). -/
def c6wState : StepState :=
  { emptyStepState with
    objects := [{ name := "Pen", visible := true },
                { name := "Mug", visible := true }] }

/-- Concrete PickUpTask already at its step budget while holding an object
(claim C7). -/
def c7Task : PickUpTask :=
  { max_episode_length := 20
    movement_reward := -1/100
    target_objects := [("Apple", 5)]
    step_num := 20
    prev_inventory := ["Apple"] }

/-- Concrete PickUpAndFindReceptacleTask at its step budget (claim C7). -/
def c7RecTask : PickUpAndFindReceptacleTask :=
  { max_episode_length := 20
    movement_reward := -1/100
    target_objects := [("Apple", 5)]
    target_receptacles := []
    target_receptacles_need_open := []
    step_num := 25
    prev_inventory := [] }

/-- Concrete state whose inventory still holds an object (claim C7). -/
def c7State : StepState :=
  { emptyStepState with inventoryObjects := ["Apple"] }

/-- Keyword arguments for a fresh PickUpTask (claim C9). -/
def c9Kwargs : TaskKwargs :=
  { max_episode_length := some 100
    movement_reward := some (-1/100)
    target_objects := some [("Apple", 5)]
    target_receptacles := some [("Fridge", 3)]
    target_receptacles_need_open := some [("Fridge", 2)]
    pickup_objects := ["Apple"] }

/-- A used PickUpTask instance with the configuration of `c9Kwargs` but
dirty runtime state (claim C9). -/
def c9UsedPickUp : PickUpTask :=
  { max_episode_length := 100
    movement_reward := -1/100
    target_objects := [("Apple", 5)]
    step_num := 42
    prev_inventory := ["Apple"] }

/-- A used PickUpAndFindReceptacleTask instance with the configuration of
`c9Kwargs` but dirty runtime state (claim C9). -/
def c9UsedRec : PickUpAndFindReceptacleTask :=
  { max_episode_length := 100
    movement_reward := -1/100
    target_objects := [("Apple", 5)]
    target_receptacles := [("Fridge", 3)]
    target_receptacles_need_open := [("Fridge", 2)]
    step_num := 42
    prev_inventory := ["Apple"] }

/-- A used ExploreAllObjects instance with the configuration of `c9Kwargs`
but dirty runtime state (claim C9). -/
def c9UsedExp : ExploreAllObjects :=
  { max_episode_length := 100
    movement_reward := -1/100
    target_objects := [("Apple", 5)]
    step_num := 42
    discoverd := ["Apple"] }

/-- A one-step input sequence used to compare trajectories (claim C9). -/
def c9States : List StepState :=
  [{ emptyStepState with inventoryObjects := ["Apple"] }]

/-- Concrete task with a nonempty `target_receptacles_need_open` table
(claim C10). -/
def c10Task : PickUpAndFindReceptacleTask :=
  { max_episode_length := 1000
    movement_reward := -1/100
    target_objects := [("Apple", 5)]
    target_receptacles := []
    target_receptacles_need_open := [("Box", 2)]
    step_num := 1
    prev_inventory := [] }

/-- Concrete state with a closed-object event but no opened-object event
(claim C10). -/
def c10State : StepState :=
  { emptyStepState with lastObjectClosed := some "Box" }

/-- Concrete task for a step in which both the pickup bonus and the open
bonus apply (claim C8). -/
def c8Task : PickUpAndFindReceptacleTask :=
  { max_episode_length := 1000
    movement_reward := -1/100
    target_objects := [("Apple", 5)]
    target_receptacles := []
    target_receptacles_need_open := [("Fridge", 2)]
    step_num := 0
    prev_inventory := [] }

/-- Concrete state in which an "Apple" was just picked up and a "Fridge"
was just opened (claim C8). -/
def c8State : StepState :=
  { emptyStepState with
    inventoryObjects := ["Apple"]
    lastObjectOpened := some "Fridge" }

/-- C1: when `transition_reward` is called with action `"CloseObject"` and
both a closed-object and an opened-object event are present, the amount
subtracted relative to an otherwise identical call with no significant
action is `target_receptacles_need_open` looked up at the *opened* object's
type, whatever the closed object's type is. -/
theorem C1_close_subtracts_opened_lookup
    (t : PickUpAndFindReceptacleTask) (s : StepState) (c o : String)
    (hc : s.lastObjectClosed = some c) (ho : s.lastObjectOpened = some o) :
    t.transition_reward s (some "CloseObject") =
      (Except.map
        (fun rd =>
          (rd.1 - dictGet t.target_receptacles_need_open o 0, rd.2))
        (t.transition_reward s none).1,
       (t.transition_reward s none).2) := by
  unfold PickUpAndFindReceptacleTask.transition_reward
  cases hpd : putDownResult t s with
  | none => simp [Except.map]
  | some pb =>
    simp [closeResult, openBonus, hc, ho, Except.map, sub_eq_add_neg]

/-- Witness for C1 at a concrete task and state: closing a "Box" after
having opened a "Fridge" subtracts the "Fridge" entry. -/
theorem C1_close_subtracts_opened_lookup_witness :
    c1State.lastObjectClosed = some "Box" ∧
    c1State.lastObjectOpened = some "Fridge" ∧
    c1Task.transition_reward c1State (some "CloseObject") =
      (Except.map
        (fun rd =>
          (rd.1 - dictGet c1Task.target_receptacles_need_open "Fridge" 0,
           rd.2))
        (c1Task.transition_reward c1State none).1,
       (c1Task.transition_reward c1State none).2) :=
  ⟨rfl, rfl, C1_close_subtracts_opened_lookup c1Task c1State "Box" "Fridge"
    rfl rfl⟩

/-- C10: with action `"CloseObject"` and a closed-object event present but
the opened-object event absent, `transition_reward` raises (dereferences
the absent `lastObjectOpened` descriptor) instead of treating the bonus as
zero. -/
theorem C10_close_requires_opened
    (t : PickUpAndFindReceptacleTask) (s : StepState) (c : String)
    (hc : s.lastObjectClosed = some c) (ho : s.lastObjectOpened = none) :
    (t.transition_reward s (some "CloseObject")).1 =
      .error .typeError := by
  unfold PickUpAndFindReceptacleTask.transition_reward
  cases hpd : putDownResult t s with
  | none => simp
  | some pb => simp [closeResult, hc, ho]

/-- Witness for C10 at a concrete task and state: closing a "Box" with no
opened-object event on record raises. -/
theorem C10_close_requires_opened_witness :
    c10State.lastObjectClosed = some "Box" ∧
    c10State.lastObjectOpened = none ∧
    (c10Task.transition_reward c10State (some "CloseObject")).1 =
      .error .typeError :=
  ⟨rfl, rfl, C10_close_requires_opened c10Task c10State "Box" rfl rfl⟩

/-- When the `object_put_down` guard holds, the current inventory is
empty. -/
theorem objectPutDown_curr_nil (prev curr : List String)
    (tobjs : List (String × Rat))
    (h : objectPutDown prev curr tobjs = true) : curr = [] := by
  unfold objectPutDown at h
  cases prev with
  | nil => cases h
  | cons p ps =>
    have h2 := (Bool.and_eq_true _ _).mp h
    exact List.isEmpty_iff.mp h2.1

/-- A key that fails the membership test looks up to the default. -/
theorem dictGet_default_of_not_has (d : List (String × Rat)) (k : String)
    (h : dictHas d k = false) (q : Rat) : dictGet d k q = q := by
  unfold dictHas at h
  unfold dictGet
  cases hl : d.lookup k with
  | none => rfl
  | some v => rw [hl] at h; cases h

/-- C3 counterexample: with the put-down edge firing
(`prev_inventory = ["Apple"]`, empty current inventory, "Apple" a target
object) and `lastObjectPutReceptacle` absent, the call raises instead of
returning normally with a zero bonus. -/
theorem C3_counterexample :
    (c3Task.transition_reward c3State none).1 =
      Except.error RewardError.typeError := by
  rfl

/-- C3 amended: when the put-down edge fires, the receptacle bonus added is
`target_receptacles[lastObjectPutReceptacle.type]` — 0 when that type is
not listed — but only when the receptacle event is present; when it is
absent the call raises instead of returning normally. -/
theorem C3_put_down_receptacle_bonus (t : PickUpAndFindReceptacleTask)
    (s : StepState)
    (hput : objectPutDown t.prev_inventory s.inventoryObjects
      t.target_objects = true) :
    (∀ p, s.lastObjectPutReceptacle = some p →
      (t.transition_reward s none).1 =
        .ok (t.movement_reward + dictGet t.target_receptacles p 0,
          decide (t.max_episode_length ≠ 0 ∧
            t.max_episode_length ≤ t.step_num)) ∧
      (dictHas t.target_receptacles p = false →
        dictGet t.target_receptacles p 0 = 0)) ∧
    (s.lastObjectPutReceptacle = none →
      (t.transition_reward s none).1 = .error .typeError) := by
  have hcurr : s.inventoryObjects = [] :=
    objectPutDown_curr_nil _ _ _ hput
  rw [hcurr] at hput
  constructor
  · intro p hp
    refine ⟨?_, fun hhas => dictGet_default_of_not_has _ _ hhas 0⟩
    unfold PickUpAndFindReceptacleTask.transition_reward
    simp [putDownResult, hput, hp, closeResult, openBonus, pickupBonus,
      hcurr]
  · intro hp
    unfold PickUpAndFindReceptacleTask.transition_reward
    simp [putDownResult, hput, hp, hcurr]

/-- Witness for C3 amended: putting the "Apple" down into an unlisted
"Table" receptacle returns normally with a zero bonus, while the same
put-down with the receptacle event absent raises. -/
theorem C3_put_down_receptacle_bonus_witness :
    objectPutDown c3Task.prev_inventory c3StateTable.inventoryObjects
      c3Task.target_objects = true ∧
    ((c3Task.transition_reward c3StateTable none).1 =
      .ok (c3Task.movement_reward +
          dictGet c3Task.target_receptacles "Table" 0,
        decide (c3Task.max_episode_length ≠ 0 ∧
          c3Task.max_episode_length ≤ c3Task.step_num)) ∧
      (dictHas c3Task.target_receptacles "Table" = false →
        dictGet c3Task.target_receptacles "Table" 0 = 0)) ∧
    ((c3Task.transition_reward c3State none).1 = .error .typeError) :=
  ⟨by decide,
   (C3_put_down_receptacle_bonus c3Task c3StateTable (by decide)).1
     "Table" rfl,
   (C3_put_down_receptacle_bonus c3Task c3State (by decide)).2 rfl⟩

/-- C7: for PickUpTask and PickUpAndFindReceptacleTask alike, when
`max_episode_length` is non-zero and `step_num` has reached it,
`transition_reward` reports `done = true` whatever the inventory contents
of the state (for the receptacle variant, whenever the call returns at
all). -/
theorem C7_max_episode_length_done :
    (∀ (t : PickUpTask) (s : StepState),
      t.max_episode_length ≠ 0 → t.max_episode_length ≤ t.step_num →
      (t.transition_reward s).1.2 = true) ∧
    (∀ (t : PickUpAndFindReceptacleTask) (s : StepState)
      (a : Option String) (r : Rat) (d : Bool),
      t.max_episode_length ≠ 0 → t.max_episode_length ≤ t.step_num →
      (t.transition_reward s a).1 = .ok (r, d) → d = true) := by
  constructor
  · intro t s h1 h2
    simp [PickUpTask.transition_reward, h1, h2]
  · intro t s a r d h1 h2 hok
    unfold PickUpAndFindReceptacleTask.transition_reward at hok
    cases hpd : putDownResult t s with
    | none => rw [hpd] at hok; cases hok
    | some pb =>
      rw [hpd] at hok
      cases hcr : closeResult t s a with
      | none => rw [hcr] at hok; cases hok
      | some cb =>
        rw [hcr] at hok
        simp [h1, h2] at hok
        exact hok.2

/-- Witness for C7: a PickUpTask at its step budget while the state still
has an "Apple" in inventory reports done, and so does a
PickUpAndFindReceptacleTask past its budget. -/
theorem C7_max_episode_length_done_witness :
    c7Task.max_episode_length ≠ 0 ∧
    c7Task.max_episode_length ≤ c7Task.step_num ∧
    (c7Task.transition_reward c7State).1.2 = true ∧
    ∀ r d, (c7RecTask.transition_reward c7State none).1 = .ok (r, d) →
      d = true :=
  ⟨by decide, by decide,
   C7_max_episode_length_done.1 c7Task c7State (by decide) (by decide),
   fun r d h => C7_max_episode_length_done.2 c7RecTask c7State none r d
     (by decide) (by decide) h⟩

/-- C4 counterexample: constructing either pick-up variant from keyword
arguments whose `target_objects` option is unset raises a `KeyError`
(the source subscripts `kwargs['task']['target_objects']` directly during
validation) rather than succeeding with an empty default. -/
theorem C4_counterexample :
    PickUpTask.init c4Kwargs = .error .keyError ∧
    PickUpAndFindReceptacleTask.init c4Kwargs = .error .keyError :=
  ⟨rfl, rfl⟩

/-- C4 amended: constructing a PickUpTask or PickUpAndFindReceptacleTask
with `target_objects` unset fails with a `KeyError`; only
`target_receptacles` and `target_receptacles_need_open` default to the
empty mapping when unset (on a construction that succeeds). -/
theorem C4_unset_options :
    (∀ kwargs : TaskKwargs, kwargs.target_objects = none →
      PickUpTask.init kwargs = .error .keyError ∧
      PickUpAndFindReceptacleTask.init kwargs = .error .keyError) ∧
    (∀ (kwargs : TaskKwargs) (t : PickUpAndFindReceptacleTask),
      PickUpAndFindReceptacleTask.init kwargs = .ok t →
      (kwargs.target_receptacles = none → t.target_receptacles = []) ∧
      (kwargs.target_receptacles_need_open = none →
        t.target_receptacles_need_open = [])) := by
  constructor
  · intro kwargs h
    constructor
    · unfold PickUpTask.init
      rw [h]
    · unfold PickUpAndFindReceptacleTask.init
      rw [h]
  · intro kwargs t hok
    unfold PickUpAndFindReceptacleTask.init at hok
    cases hto : kwargs.target_objects with
    | none => rw [hto] at hok; cases hok
    | some tobjs =>
      rw [hto] at hok
      by_cases hm : (missingObjects tobjs kwargs.pickup_objects).isEmpty
      · simp [hm] at hok
        subst hok
        constructor
        · intro hr; simp [hr]
        · intro hr; simp [hr]
      · simp [hm] at hok

/-- Witness for C4 amended: the concrete kwargs with `target_objects`
unset fail to construct, and the concrete kwargs with only the receptacle
tables unset construct a task whose receptacle tables are empty. -/
theorem C4_unset_options_witness :
    (PickUpTask.init c4Kwargs = .error .keyError ∧
     PickUpAndFindReceptacleTask.init c4Kwargs = .error .keyError) ∧
    ((c4KwargsOk.target_receptacles = none →
        ({ max_episode_length := 50
           movement_reward := -1/100
           target_objects := [("Apple", 5)]
           target_receptacles := []
           target_receptacles_need_open := []
           step_num := 0
           prev_inventory := [] } :
          PickUpAndFindReceptacleTask).target_receptacles = []) ∧
     (c4KwargsOk.target_receptacles_need_open = none →
        ({ max_episode_length := 50
           movement_reward := -1/100
           target_objects := [("Apple", 5)]
           target_receptacles := []
           target_receptacles_need_open := []
           step_num := 0
           prev_inventory := [] } :
          PickUpAndFindReceptacleTask).target_receptacles_need_open =
          [])) :=
  ⟨C4_unset_options.1 c4Kwargs rfl,
   C4_unset_options.2 c4KwargsOk _ (by rfl)⟩

/-- The validation list is empty exactly when every configured target key
is pickupable. -/
theorem missingObjects_eq_nil_iff (tobjs : List (String × Rat))
    (pickups : List String) :
    missingObjects tobjs pickups = [] ↔
      ∀ k ∈ tobjs.map Prod.fst, k ∈ pickups := by
  unfold missingObjects
  rw [List.filter_eq_nil_iff]
  simp [List.elem_iff]

/-- C5: with `target_objects` configured, construction of either pick-up
variant raises `InvalidTaskParams` exactly when some configured target key
is not pickupable, and returns a constructed task otherwise (no partially
constructed task is ever returned: the result is either an error or a
task). -/
theorem C5_invalid_task_params (kwargs : TaskKwargs)
    (tobjs : List (String × Rat))
    (h : kwargs.target_objects = some tobjs) :
    ((∃ m, PickUpTask.init kwargs = .error (.invalidTaskParams m)) ↔
      ∃ k ∈ tobjs.map Prod.fst, k ∉ kwargs.pickup_objects) ∧
    ((∃ m, PickUpAndFindReceptacleTask.init kwargs =
        .error (.invalidTaskParams m)) ↔
      ∃ k ∈ tobjs.map Prod.fst, k ∉ kwargs.pickup_objects) ∧
    ((∀ k ∈ tobjs.map Prod.fst, k ∈ kwargs.pickup_objects) →
      (∃ t, PickUpTask.init kwargs = .ok t) ∧
      ∃ t2, PickUpAndFindReceptacleTask.init kwargs = .ok t2) := by
  have hiff := missingObjects_eq_nil_iff tobjs kwargs.pickup_objects
  by_cases hm : (missingObjects tobjs kwargs.pickup_objects).isEmpty
  case pos =>
    have hall := hiff.mp (List.isEmpty_iff.mp hm)
    have hnex : ¬ ∃ k ∈ tobjs.map Prod.fst,
        k ∉ kwargs.pickup_objects := by
      rintro ⟨k, hk, hkn⟩
      exact hkn (hall k hk)
    have hok1 : PickUpTask.init kwargs = .ok
        { max_episode_length := kwargs.max_episode_length.getD 1000
          movement_reward := kwargs.movement_reward.getD (-1/100)
          target_objects := tobjs
          step_num := 0
          prev_inventory := [] } := by
      unfold PickUpTask.init
      rw [h]
      simp [hm]
    have hok2 : PickUpAndFindReceptacleTask.init kwargs = .ok
        { max_episode_length := kwargs.max_episode_length.getD 1000
          movement_reward := kwargs.movement_reward.getD (-1/100)
          target_objects := tobjs
          target_receptacles := kwargs.target_receptacles.getD []
          target_receptacles_need_open :=
            kwargs.target_receptacles_need_open.getD []
          step_num := 0
          prev_inventory := [] } := by
      unfold PickUpAndFindReceptacleTask.init
      rw [h]
      simp [hm]
    refine ⟨?_, ?_, fun _ => ⟨⟨_, hok1⟩, ⟨_, hok2⟩⟩⟩
    · constructor
      · rintro ⟨m, hmeq⟩
        rw [hok1] at hmeq
        cases hmeq
      · intro hex
        exact absurd hex hnex
    · constructor
      · rintro ⟨m, hmeq⟩
        rw [hok2] at hmeq
        cases hmeq
      · intro hex
        exact absurd hex hnex
  case neg =>
    have hnnil : ¬ missingObjects tobjs kwargs.pickup_objects = [] := by
      intro hx
      exact hm (by simp [hx])
    have hex : ∃ k ∈ tobjs.map Prod.fst, k ∉ kwargs.pickup_objects := by
      by_contra hc
      push_neg at hc
      exact hnnil (hiff.mpr hc)
    have herr1 : PickUpTask.init kwargs = .error
        (.invalidTaskParams
          (missingObjects tobjs kwargs.pickup_objects)) := by
      unfold PickUpTask.init
      rw [h]
      simp [hm]
    have herr2 : PickUpAndFindReceptacleTask.init kwargs = .error
        (.invalidTaskParams
          (missingObjects tobjs kwargs.pickup_objects)) := by
      unfold PickUpAndFindReceptacleTask.init
      rw [h]
      simp [hm]
    exact ⟨⟨fun _ => hex, fun _ => ⟨_, herr1⟩⟩,
           ⟨fun _ => hex, fun _ => ⟨_, herr2⟩⟩,
           fun hall => absurd (hiff.mpr hall) hnnil⟩

/-- Witness for C5: kwargs targeting the non-pickupable "Unicorn" raise
`InvalidTaskParams` for both variants, while kwargs whose targets are all
pickupable construct both variants. -/
theorem C5_invalid_task_params_witness :
    (∃ m, PickUpTask.init c5KwargsBad = .error (.invalidTaskParams m)) ∧
    (∃ m, PickUpAndFindReceptacleTask.init c5KwargsBad =
      .error (.invalidTaskParams m)) ∧
    (∃ t, PickUpTask.init c5KwargsGood = .ok t) ∧
    (∃ t2, PickUpAndFindReceptacleTask.init c5KwargsGood = .ok t2) := by
  have hbad := C5_invalid_task_params c5KwargsBad
    [("Apple", 5), ("Unicorn", 7)] rfl
  have hgood := C5_invalid_task_params c5KwargsGood
    [("Apple", 5), ("Mug", 7)] rfl
  exact ⟨hbad.1.mpr ⟨"Unicorn", by decide, by decide⟩,
         hbad.2.1.mpr ⟨"Unicorn", by decide, by decide⟩,
         (hgood.2.2 (by decide)).1,
         (hgood.2.2 (by decide)).2⟩

/-- C8 counterexample (negation of the claim's strongest part): the
`object_picked_up` and `object_put_down` guards of
`PickUpAndFindReceptacleTask.transition_reward` can never hold in the same
step, because the first requires the previous inventory to be empty and
the second requires it to be non-empty. -/
theorem C8_counterexample :
    ¬ ∃ (t : PickUpAndFindReceptacleTask) (s : StepState),
      (objectPickedUp t.prev_inventory s.inventoryObjects
          t.target_objects &&
        objectPutDown t.prev_inventory s.inventoryObjects
          t.target_objects) = true := by
  rintro ⟨t, s, hb⟩
  unfold objectPickedUp objectPutDown at hb
  cases hp : t.prev_inventory with
  | nil => rw [hp] at hb; simp at hb
  | cons p ps => rw [hp] at hb; simp at hb

/-- C8 amended: the pickup, put-down and open/close checks are independent
checks and more than one bonus can apply in a single step — for instance
the pickup bonus together with the open bonus — but the pickup and
put-down bonuses themselves are mutually exclusive, since they require an
empty and a non-empty previous inventory respectively. -/
theorem C8_independent_bonuses :
    (∀ (t : PickUpAndFindReceptacleTask) (s : StepState),
      (objectPickedUp t.prev_inventory s.inventoryObjects
          t.target_objects &&
        objectPutDown t.prev_inventory s.inventoryObjects
          t.target_objects) = false) ∧
    (∃ (t : PickUpAndFindReceptacleTask) (s : StepState),
      objectPickedUp t.prev_inventory s.inventoryObjects
        t.target_objects = true ∧
      pickupBonus t.prev_inventory s.inventoryObjects
        t.target_objects > 0 ∧
      openBonus t s (some "OpenObject") > 0 ∧
      (t.transition_reward s (some "OpenObject")).1 =
        .ok (t.movement_reward +
            pickupBonus t.prev_inventory s.inventoryObjects
              t.target_objects +
            openBonus t s (some "OpenObject"), false)) := by
  constructor
  · intro t s
    unfold objectPickedUp objectPutDown
    cases t.prev_inventory with
    | nil => simp
    | cons p ps => simp
  · refine ⟨c8Task, c8State, by decide, by decide, by decide, ?_⟩
    unfold PickUpAndFindReceptacleTask.transition_reward
    simp [putDownResult, closeResult, objectPutDown, c8Task, c8State,
      emptyStepState]

/-- C2 counterexample: an ExploreAllObjects step whose second scene object
violates the `target_objects` contract raises the assertion error, yet the
first (visible) object has already been added to the discovered set, so
the raising call did not leave the runtime state unchanged. -/
theorem C2_counterexample :
    (c2ExpTask.transition_reward c2ExpState).1 =
      Except.error RewardError.assertionError ∧
    (c2ExpTask.transition_reward c2ExpState).2.discoverd = ["Mug"] ∧
    c2ExpTask.discoverd = [] :=
  ⟨rfl, rfl, rfl⟩

/-- Along the object loop, `discoverd` only ever grows by appending. -/
theorem exploreLoop_discoverd_extends (tobjs : List (String × Rat)) :
    ∀ (objs : List SceneObject) (disc : List String) (reward : Rat),
      ∃ ext, (exploreLoop tobjs disc reward objs).2 = disc ++ ext := by
  intro objs
  induction objs with
  | nil =>
    intro disc reward
    exact ⟨[], by simp [exploreLoop]⟩
  | cons o rest ih =>
    intro disc reward
    unfold exploreLoop
    by_cases h1 : dictHas tobjs o.name
    · by_cases h2 : o.visible = true ∧ o.name ∉ disc
      · obtain ⟨ext2, hext2⟩ :=
          ih (disc ++ [o.name]) (reward + dictGet tobjs o.name 0)
        refine ⟨[o.name] ++ ext2, ?_⟩
        simp only [h1, Bool.not_true, Bool.false_eq_true, if_false]
        simp [h2]
        rw [hext2, List.append_assoc]
        simp
      · obtain ⟨ext2, hext2⟩ := ih disc reward
        refine ⟨ext2, ?_⟩
        simp [h1, h2]
        exact hext2
    · exact ⟨[], by simp [h1]⟩

/-- C2 amended: a raising `transition_reward` call leaves `prev_inventory`
untouched for the pick-up variants (whose raises happen before the
reassignment), but for ExploreAllObjects a call that raises the
contract-violation error may already have extended the discovered set with
the objects scanned before the violating one. -/
theorem C2_atomicity :
    (∀ (t : PickUpAndFindReceptacleTask) (s : StepState)
        (a : Option String) (e : RewardError),
      (t.transition_reward s a).1 = .error e →
      (t.transition_reward s a).2 = t) ∧
    (∀ (t : ExploreAllObjects) (s : StepState) (e : RewardError),
      (t.transition_reward s).1 = .error e →
      ∃ ext, (t.transition_reward s).2.discoverd = t.discoverd ++ ext) := by
  constructor
  · intro t s a e herr
    unfold PickUpAndFindReceptacleTask.transition_reward at herr ⊢
    cases hpd : putDownResult t s with
    | none => simp
    | some pb =>
      cases hcr : closeResult t s a with
      | none => simp
      | some cb => simp [hpd, hcr] at herr
  · intro t s e herr
    obtain ⟨ext, hext⟩ := exploreLoop_discoverd_extends t.target_objects
      s.objects t.discoverd t.movement_reward
    unfold ExploreAllObjects.transition_reward at herr ⊢
    cases hloop : exploreLoop t.target_objects t.discoverd
      t.movement_reward s.objects with
    | mk res disc =>
      rw [hloop] at hext herr
      simp at hext
      cases res with
      | error e2 => exact ⟨ext, by simp [hext]⟩
      | ok reward =>
        dsimp only at herr
        split at herr
        · split at herr
          · simp at herr
          · simp at herr
        · simp at herr

/-- Witness for C2 amended: the concrete raising put-down step leaves the
receptacle task unchanged, and the concrete raising exploration step
extends the discovered set. -/
theorem C2_atomicity_witness :
    (c2RecTask.transition_reward c2RecState none).2 = c2RecTask ∧
    ∃ ext, (c2ExpTask.transition_reward c2ExpState).2.discoverd =
      c2ExpTask.discoverd ++ ext :=
  ⟨C2_atomicity.1 c2RecTask c2RecState none RewardError.typeError rfl,
   C2_atomicity.2 c2ExpTask c2ExpState RewardError.assertionError rfl⟩

/-- C6 counterexample: when the final target is discovered on the very step
at which the step budget is also exhausted, the source takes the
max-episode-length branch and omits the +50 completion bonus, so the
claimed reward `movement_reward + target_objects[obj] + 50` is not
returned (done is still true). -/
theorem C6_counterexample :
    (c6Task.transition_reward c6State).1 = .ok (-1/100 + 5, true) ∧
    (-1/100 + 5 : Rat) ≠ -1/100 + 5 + 50 := by
  constructor
  · rfl
  · norm_num

/-- If every remaining object is either invisible or already discovered
(and its name passes the assertion), the loop changes nothing. -/
theorem exploreLoop_no_new (tobjs : List (String × Rat)) :
    ∀ (objs : List SceneObject) (disc : List String) (reward : Rat),
      (∀ obj ∈ objs, dictHas tobjs obj.name = true) →
      (∀ obj ∈ objs, obj.visible = true → obj.name ∈ disc) →
      exploreLoop tobjs disc reward objs = (.ok reward, disc) := by
  intro objs
  induction objs with
  | nil => intro disc reward _ _; rfl
  | cons o rest ih =>
    intro disc reward hA hB
    have h1 : dictHas tobjs o.name = true := hA o (by simp)
    have h2 : ¬(o.visible = true ∧ o.name ∉ disc) := by
      rintro ⟨hv, hn⟩
      exact hn (hB o (by simp) hv)
    unfold exploreLoop
    simp only [h1, Bool.not_true, Bool.false_eq_true, if_false]
    simp [h2]
    exact ih disc reward (fun obj h => hA obj (by simp [h]))
      (fun obj h hv => hB obj (by simp [h]) hv)

/-- If the only visible, not-yet-discovered name among the scanned objects
is `oname`, every name passes the assertion, and some visible object bears
`oname`, then the loop adds exactly the `oname` reward once and appends
`oname` to the discovered list. -/
theorem exploreLoop_last_discovery (tobjs : List (String × Rat))
    (oname : String) :
    ∀ (objs : List SceneObject) (disc : List String) (reward : Rat),
      (∀ obj ∈ objs, dictHas tobjs obj.name = true) →
      (∀ obj ∈ objs, obj.visible = true → obj.name ∉ disc →
        obj.name = oname) →
      (∃ obj ∈ objs, obj.visible = true ∧ obj.name = oname) →
      oname ∉ disc →
      exploreLoop tobjs disc reward objs =
        (.ok (reward + dictGet tobjs oname 0), disc ++ [oname]) := by
  intro objs
  induction objs with
  | nil =>
    rintro disc reward _ _ ⟨obj, hobj, _⟩ _
    cases hobj
  | cons o rest ih =>
    intro disc reward hA hB hC hD
    have h1 : dictHas tobjs o.name = true := hA o (by simp)
    unfold exploreLoop
    simp only [h1, Bool.not_true, Bool.false_eq_true, if_false]
    by_cases h2 : o.visible = true ∧ o.name ∉ disc
    · have hname : o.name = oname := hB o (by simp) h2.1 h2.2
      have hA2 : ∀ obj ∈ rest, dictHas tobjs obj.name = true :=
        fun obj h => hA obj (List.mem_cons_of_mem _ h)
      have hB2 : ∀ obj ∈ rest, obj.visible = true →
          obj.name ∈ disc ++ [oname] := by
        intro obj h hv
        by_cases hmem : obj.name ∈ disc
        · exact List.mem_append_left _ hmem
        · have heq := hB obj (List.mem_cons_of_mem _ h) hv hmem
          exact List.mem_append_right _ (by simp [heq])
      simp [h2, hname]
      rw [if_neg hD]
      first
      | rfl
      | exact exploreLoop_no_new tobjs rest (disc ++ [oname])
          (reward + dictGet tobjs oname 0) hA2 hB2
    · have hC2 : ∃ obj ∈ rest, obj.visible = true ∧ obj.name = oname := by
        obtain ⟨obj, hobj, hv, hn⟩ := hC
        rcases List.mem_cons.mp hobj with heq | hmem
        · subst heq
          exact absurd ⟨hv, by rw [hn]; exact hD⟩ h2
        · exact ⟨obj, hmem, hv, hn⟩
      simp [h2]
      exact ih disc reward (fun obj h => hA obj (by simp [h]))
        (fun obj h hv hn => hB obj (by simp [h]) hv hn) hC2 hD

/-- C6 amended: discovering the final unseen target object when
`len(discoverd) + 1 == len(target_objects)` yields reward =
`movement_reward + target_objects[that_object] + 50` and done = true,
provided the step budget is not simultaneously exhausted (in that corner
case the max-episode-length branch is taken instead and the +50 bonus is
omitted, see the counterexample). -/
theorem C6_final_discovery (t : ExploreAllObjects) (s : StepState)
    (oname : String)
    (hA : ∀ obj ∈ s.objects, dictHas t.target_objects obj.name = true)
    (hB : ∀ obj ∈ s.objects, obj.visible = true →
      obj.name ∉ t.discoverd → obj.name = oname)
    (hC : ∃ obj ∈ s.objects, obj.visible = true ∧ obj.name = oname)
    (hD : oname ∉ t.discoverd)
    (hlen : t.discoverd.length + 1 = t.target_objects.length)
    (hmax : ¬(t.max_episode_length ≠ 0 ∧
      t.max_episode_length ≤ t.step_num)) :
    t.transition_reward s =
      (.ok (t.movement_reward + dictGet t.target_objects oname 0 + 50,
        true),
       { t with discoverd := t.discoverd ++ [oname] }) := by
  unfold ExploreAllObjects.transition_reward
  rw [exploreLoop_last_discovery t.target_objects oname s.objects
    t.discoverd t.movement_reward hA hB hC hD]
  have hlen2 : (t.discoverd ++ [oname]).length =
      t.target_objects.length := by
    simp [hlen]
  simp [hmax, hlen2]

/-- Witness for C6 amended: with "Pen" already discovered and "Mug" the
final target becoming visible below the step budget, the step returns the
movement reward plus the "Mug" reward plus 50 and reports done. -/
theorem C6_final_discovery_witness :
    (∀ obj ∈ c6wState.objects,
      dictHas c6wTask.target_objects obj.name = true) ∧
    (∃ obj ∈ c6wState.objects, obj.visible = true ∧ obj.name = "Mug") ∧
    "Mug" ∉ c6wTask.discoverd ∧
    c6wTask.discoverd.length + 1 = c6wTask.target_objects.length ∧
    c6wTask.transition_reward c6wState =
      (.ok (c6wTask.movement_reward +
          dictGet c6wTask.target_objects "Mug" 0 + 50, true),
       { c6wTask with discoverd := c6wTask.discoverd ++ ["Mug"] }) :=
  ⟨by decide, by decide, by decide, by decide,
   C6_final_discovery c6wTask c6wState "Mug" (by decide) (by decide)
     (by decide) (by decide) (by decide) (by decide)⟩

/-- A successfully constructed PickUpTask starts at step 0 with an empty
previous inventory. -/
theorem pickupInitRuntime (kwargs : TaskKwargs) (t : PickUpTask)
    (h : PickUpTask.init kwargs = .ok t) :
    t.step_num = 0 ∧ t.prev_inventory = [] := by
  unfold PickUpTask.init at h
  cases hto : kwargs.target_objects with
  | none => rw [hto] at h; cases h
  | some tobjs =>
    rw [hto] at h
    by_cases hm : (missingObjects tobjs kwargs.pickup_objects).isEmpty
    · simp [hm] at h
      subst h
      exact ⟨rfl, rfl⟩
    · simp [hm] at h

/-- A successfully constructed PickUpAndFindReceptacleTask starts at step 0
with an empty previous inventory. -/
theorem receptacleInitRuntime (kwargs : TaskKwargs)
    (t : PickUpAndFindReceptacleTask)
    (h : PickUpAndFindReceptacleTask.init kwargs = .ok t) :
    t.step_num = 0 ∧ t.prev_inventory = [] := by
  unfold PickUpAndFindReceptacleTask.init at h
  cases hto : kwargs.target_objects with
  | none => rw [hto] at h; cases h
  | some tobjs =>
    rw [hto] at h
    by_cases hm : (missingObjects tobjs kwargs.pickup_objects).isEmpty
    · simp [hm] at h
      subst h
      exact ⟨rfl, rfl⟩
    · simp [hm] at h

/-- C9: for every variant, calling `reset` on a used instance and feeding
it any finite input sequence under the external stepping loop produces
exactly the trajectory of a freshly constructed instance with the same
configuration. -/
theorem C9_reset_reproduces_fresh :
    (∀ (kwargs : TaskKwargs) (t0 t : PickUpTask),
      PickUpTask.init kwargs = .ok t0 →
      t.max_episode_length = t0.max_episode_length →
      t.movement_reward = t0.movement_reward →
      t.target_objects = t0.target_objects →
      ∀ inputs, PickUpTask.runSeq t.reset inputs =
        PickUpTask.runSeq t0 inputs) ∧
    (∀ (kwargs : TaskKwargs) (t0 t : PickUpAndFindReceptacleTask),
      PickUpAndFindReceptacleTask.init kwargs = .ok t0 →
      t.max_episode_length = t0.max_episode_length →
      t.movement_reward = t0.movement_reward →
      t.target_objects = t0.target_objects →
      t.target_receptacles = t0.target_receptacles →
      t.target_receptacles_need_open = t0.target_receptacles_need_open →
      ∀ inputs, PickUpAndFindReceptacleTask.runSeq t.reset inputs =
        PickUpAndFindReceptacleTask.runSeq t0 inputs) ∧
    (∀ (kwargs : TaskKwargs) (t : ExploreAllObjects),
      t.max_episode_length =
        (ExploreAllObjects.init kwargs).max_episode_length →
      t.movement_reward =
        (ExploreAllObjects.init kwargs).movement_reward →
      t.target_objects = (ExploreAllObjects.init kwargs).target_objects →
      ∀ inputs, ExploreAllObjects.runSeq t.reset inputs =
        ExploreAllObjects.runSeq (ExploreAllObjects.init kwargs) inputs) := by
  refine ⟨?_, ?_, ?_⟩
  · intro kwargs t0 t hinit h1 h2 h3 inputs
    have hres : t.reset = t0 := by
      obtain ⟨hs, hp⟩ := pickupInitRuntime kwargs t0 hinit
      unfold PickUpTask.reset
      cases t0
      cases t
      simp_all
    rw [hres]
  · intro kwargs t0 t hinit h1 h2 h3 h4 h5 inputs
    have hres : t.reset = t0 := by
      obtain ⟨hs, hp⟩ :=
        receptacleInitRuntime kwargs t0 hinit
      unfold PickUpAndFindReceptacleTask.reset
      cases t0
      cases t
      simp_all
    rw [hres]
  · intro kwargs t h1 h2 h3 inputs
    have hres : t.reset = ExploreAllObjects.init kwargs := by
      unfold ExploreAllObjects.reset ExploreAllObjects.init at *
      cases t
      simp_all
    rw [hres]

/-- Witness for C9: the concrete used instances of each variant, once
reset, reproduce on a one-step input sequence the trajectory of the
freshly constructed instance obtained from `c9Kwargs`. -/
theorem C9_reset_reproduces_fresh_witness :
    PickUpTask.init c9Kwargs = .ok
      { max_episode_length := 100
        movement_reward := -1/100
        target_objects := [("Apple", 5)]
        step_num := 0
        prev_inventory := [] } ∧
    PickUpTask.runSeq c9UsedPickUp.reset c9States =
      PickUpTask.runSeq
        { max_episode_length := 100
          movement_reward := -1/100
          target_objects := [("Apple", 5)]
          step_num := 0
          prev_inventory := [] } c9States ∧
    PickUpAndFindReceptacleTask.runSeq c9UsedRec.reset
        (c9States.map (fun s => (s, none))) =
      PickUpAndFindReceptacleTask.runSeq
        { max_episode_length := 100
          movement_reward := -1/100
          target_objects := [("Apple", 5)]
          target_receptacles := [("Fridge", 3)]
          target_receptacles_need_open := [("Fridge", 2)]
          step_num := 0
          prev_inventory := [] }
        (c9States.map (fun s => (s, none))) ∧
    ExploreAllObjects.runSeq c9UsedExp.reset c9States =
      ExploreAllObjects.runSeq (ExploreAllObjects.init c9Kwargs)
        c9States := by
  refine ⟨rfl, ?_, ?_, ?_⟩
  · exact C9_reset_reproduces_fresh.1 c9Kwargs _ c9UsedPickUp rfl rfl rfl
      rfl c9States
  · exact C9_reset_reproduces_fresh.2.1 c9Kwargs _ c9UsedRec rfl rfl rfl
      rfl rfl rfl _
  · exact C9_reset_reproduces_fresh.2.2 c9Kwargs c9UsedExp rfl rfl rfl
      c9States
